import Mathlib

/-!
Shallow embedding of the webhook ingestion and graceful-shutdown subsystem of
the `telebot` repository (files `telebot/graceful_shutdown.py` and
`telebot/webhook.py`), together with theorems settling the specification's
claims about it.

Conventions of the embedding:
* Mutable per-object attributes become explicit state values threaded through
  functions (`GracefulShutdownHandler` carries its two boolean attributes;
  a `PreventShutdown` instance's state is its single boolean flag).
* A Python function that may raise is embedded as a function returning
  `Outcome`/`Except`; the exception payload is the message string.
* Awaited coroutines are embedded as their eventual results (the scheduler's
  interleaving is irrelevant to the claims proved here, which are about the
  sequential bodies of the functions involved).
-/

/-- Result of running a piece of Python code: either a normal value or a
raised exception (carrying a description of the exception). -/
inductive Outcome (α : Type) where
  | ok (a : α)
  | raised (msg : String)
deriving DecidableEq, Repr

/-- The mutable state of the `GracefulShutdownHandler` singleton
(`graceful_shutdown.py`, lines 99-135): the two attributes set by
`__init__`. -/
structure GracefulShutdownHandler where
  _is_shutting_down : Bool
  _is_running : Bool
deriving DecidableEq, Repr

/-- Python construction `GracefulShutdownHandler()` (lines 102-109):
`__new__` returns the existing singleton when there is one (or a fresh
instance otherwise), and Python then unconditionally re-runs `__init__` on
the returned instance, setting `_is_shutting_down = False` and
`_is_running = False`.  `prior` is the singleton's state before the call
(`none` when no instance exists yet). -/
def GracefulShutdownHandler.construct (prior : Option GracefulShutdownHandler) :
    GracefulShutdownHandler :=
  let instanceReturnedByNew : GracefulShutdownHandler :=
    match prior with
    | some s => s
    | none => { _is_shutting_down := false, _is_running := false }
  -- __init__ runs on the instance returned by __new__, resetting both flags
  { instanceReturnedByNew with _is_shutting_down := false, _is_running := false }

/-- `GracefulShutdownHandler._shutdown_signal_handler` (lines 111-116): on the
first signal the state flips to shutting-down; a repeated signal while already
shutting down is only logged and changes nothing. -/
def GracefulShutdownHandler.shutdownSignalHandler (s : GracefulShutdownHandler) :
    GracefulShutdownHandler :=
  if !s._is_shutting_down then
    { s with _is_shutting_down := true }
  else
    s

/-- The entry check of `GracefulShutdownHandler.run` (lines 118-123): raises
`RuntimeError` when `_is_running` is already set, otherwise sets it and
proceeds to install the signal handlers and enter the polling loop. -/
def GracefulShutdownHandler.runStart (s : GracefulShutdownHandler) :
    Except String GracefulShutdownHandler :=
  if s._is_running then
    .error "Graceful shutdown handler may be run only once"
  else
    .ok { s with _is_running := true }

/-- What one iteration of the polling loop does after its sleep. -/
inductive LoopStep where
  | continueLoop
  | systemExit
deriving DecidableEq, Repr

/-- The `for condition in GracefulShutdownCondition.instances: ... else: ...`
block of `run` (lines 129-135): walk the currently-alive conditions (here,
the list of their awaited `is_ready()` results); on the first not-ready one,
log and `break` (so the `else` clause is skipped and the loop continues); if
no `break` happened, the `else` clause raises `SystemExit`. -/
def pollConditions : List Bool → LoopStep
  | [] => .systemExit
  | ready :: rest => if !ready then .continueLoop else pollConditions rest

/-- One full iteration of the `while True` polling loop of
`GracefulShutdownHandler.run` (lines 124-135): after the 0.5s sleep, if the
handler is not shutting down the loop just continues; otherwise the alive
conditions are polled as in `pollConditions`. -/
def GracefulShutdownHandler.runLoopIter (s : GracefulShutdownHandler)
    (aliveConditionsReady : List Bool) : LoopStep :=
  if !s._is_shutting_down then .continueLoop
  else pollConditions aliveConditionsReady

/-- Module-level `is_shutting_down()` (lines 138-139): constructs
`GracefulShutdownHandler()` (which re-runs `__init__` on the singleton) and
reads `_is_shutting_down` from the result. -/
def is_shutting_down (prior : Option GracefulShutdownHandler) : Bool :=
  (GracefulShutdownHandler.construct prior)._is_shutting_down

/-- `PreventShutdown.is_ready_to_shutdown` (lines 66-67): the readiness
predicate registered with the coordinator.  The guard's whole mutable state
is its `_is_preventing_shutdown` flag, passed here as `flag`. -/
def PreventShutdown.is_ready_to_shutdown (flag : Bool) : Bool :=
  !flag

/-- `PreventShutdown.__init__` (lines 58-64) sets
`_is_preventing_shutdown = False`. -/
def PreventShutdown.initFlag : Bool := false

/-- `PreventShutdown.__aenter__` (lines 88-91): sets the flag to `True`. -/
def PreventShutdown.aenter (_flag : Bool) : Bool := true

/-- `PreventShutdown.__aexit__` (lines 93-96): sets the flag to `False`
unconditionally, whatever its current value. -/
def PreventShutdown.aexit (_flag : Bool) : Bool := false

/-- `__aexit__` ends with `return None`; `async with` suppresses the body's
exception iff the value returned by `__aexit__` is truthy, and `None` is
falsy, so the exception is never suppressed. -/
def PreventShutdown.aexitSuppresses : Bool := false

/-- Python `async with <PreventShutdown instance>: body` (and, through
`__call__`, the decorator form): `__aenter__` runs, then the body, then
`__aexit__` runs on both the normal and the exceptional path; a raised body
exception propagates unless `__aexit__`'s return value is truthy.  `body`
receives the flag value after entry and yields its outcome together with the
flag value at its end (the body may itself mutate the flag, e.g. through a
nested `allow_shutdown`). -/
def withPreventShutdown {α : Type} [Inhabited α] (flag : Bool)
    (body : Bool → Outcome α × Bool) : Outcome α × Bool :=
  let flagEntered := PreventShutdown.aenter flag
  let (res, flagAfterBody) := body flagEntered
  let flagExited := PreventShutdown.aexit flagAfterBody
  match res with
  | .ok a => (.ok a, flagExited)
  | .raised e =>
    if PreventShutdown.aexitSuppresses then (.ok default, flagExited)
    else (.raised e, flagExited)

/-- `PreventShutdown.__call__` (lines 69-77): the decorator wraps the
function body in `async with self: return await function(...)`. -/
def PreventShutdown.call {α : Type} [Inhabited α]
    (function : Bool → Outcome α × Bool) (flag : Bool) : Outcome α × Bool :=
  withPreventShutdown flag function

/-- Entry of `PreventShutdown.allow_shutdown` (lines 79-83): saves
`initial_state = self._is_preventing_shutdown`, then sets the flag to
`False`.  Returns `(saved value, new flag value)`. -/
def PreventShutdown.allowShutdownEnter (flag : Bool) : Bool × Bool :=
  (flag, false)

/-- Exit of `PreventShutdown.allow_shutdown` (lines 85-86): restores
`self._is_preventing_shutdown = initial_state`, regardless of the flag's
current value. -/
def PreventShutdown.allowShutdownExit (saved : Bool) (_flag : Bool) : Bool :=
  saved

/-- `n` levels of nested `allow_shutdown` scopes run to completion from a
flag value `flag`: each level saves the current flag at entry, sets it to
`False`, runs the next level inside, and restores its own saved value at
exit.  Returns the flag value after the outermost exit. -/
def allowShutdownNest (flag : Bool) : Nat → Bool
  | 0 => flag
  | n + 1 =>
    let (saved, entered) := PreventShutdown.allowShutdownEnter flag
    PreventShutdown.allowShutdownExit saved (allowShutdownNest entered n)

/-- An aiohttp `web.Response`; `web.Response()` with no arguments has status
200. -/
structure Response where
  status : Nat
deriving DecidableEq, Repr

/-- Minimal model of a decoded `types.Update`: the webhook handler only ever
reads `update_id` (in its except clause). -/
structure Update where
  update_id : Int
deriving DecidableEq, Repr

/-- Minimal model of a JSON document as handed over by `request.json()`; its
contents only matter to the external decoder `de_json`. -/
structure Json where
  raw : String
deriving DecidableEq, Repr

/-- Minimal model of a `BotRunner` as stored in `bot_runner_by_route`. -/
structure BotRunner where
  name : String
deriving DecidableEq, Repr

/-- The `try` block of `handle_update` (`webhook.py`, lines 24-27):
`update = types.Update.de_json(await request.json())`, then, when the decoded
update is not `None`, `await bot_runner.bot.process_new_updates([update])`.
`jsonBody` is the outcome of `await request.json()` (raises on a malformed
body).  Returns the block's outcome together with the binding state of the
local variable `update`: `none` when the block raised before the assignment
to `update` completed (so the name is unbound), `some u?` when `update` was
bound to `u?`. -/
def handleUpdateTryBody (de_json : Json → Option Update)
    (process_new_updates : BotRunner → Update → Outcome Unit)
    (bot_runner : BotRunner) (jsonBody : Outcome Json) :
    Outcome Unit × Option (Option Update) :=
  match jsonBody with
  | .raised e => (.raised e, none)
  | .ok j =>
    match de_json j with
    | none => (.ok (), some none)
    | some u =>
      match process_new_updates bot_runner u with
      | .ok _ => (.ok (), some (some u))
      | .raised e => (.raised e, some (some u))

/-- The `except Exception` block of `handle_update` (lines 28-30): it
evaluates `update.update_id if update is not None else "<not defined>"` and
logs.  When the `try` block raised before `update` was bound (a malformed
request body), referencing `update` here raises `UnboundLocalError`;
otherwise the block completes normally. -/
def handleUpdateExceptBlock (updateBinding : Option (Option Update)) :
    Outcome Unit :=
  match updateBinding with
  | none => .raised "UnboundLocalError"
  | some _ => .ok ()

/-- Python semantics of a `return` inside a `finally` block (lines 31-32):
the `return` discards whatever was in flight — a pending exception (even one
raised by the `except` block itself, and even a `BaseException` that the
`except Exception` clause did not catch) or a pending return — and the
function returns the `finally` clause's own value. -/
def finallyReturn (_inflight : Outcome Unit) (resp : Response) :
    Outcome Response :=
  .ok resp

/-- `handle_update` (`webhook.py`, lines 17-32).  `bot_runner_by_route` is
the route table built by `run_webhook_server`; `route` is
`request.match_info.get("route")`; `jsonBody` is the outcome of
`await request.json()`; `de_json` and `process_new_updates` are the external
collaborators (`types.Update.de_json`, `bot.process_new_updates`).  Returns
the handler's outcome together with the list of updates that were handed to
`process_new_updates` (the processing trace). -/
def handle_update (bot_runner_by_route : List (String × BotRunner))
    (de_json : Json → Option Update)
    (process_new_updates : BotRunner → Update → Outcome Unit)
    (route : Option String) (jsonBody : Outcome Json) :
    Outcome Response × List Update :=
  match route with
  | none => (.ok { status := 404 }, [])
  | some r =>
    match bot_runner_by_route.lookup r with
    | none => (.ok { status := 403 }, [])
    | some bot_runner =>
      let (bodyOutcome, updateBinding) :=
        handleUpdateTryBody de_json process_new_updates bot_runner jsonBody
      let inflight : Outcome Unit :=
        match bodyOutcome with
        | .ok _ => .ok ()
        | .raised _ => handleUpdateExceptBlock updateBinding
      let processedTrace : List Update :=
        match updateBinding with
        | some (some u) => [u]
        | _ => []
      (finallyReturn inflight { status := 200 }, processedTrace)

/-- Helper: if some alive condition is not ready, the `for` walk breaks and
the loop continues. -/
theorem pollConditions_not_ready (alive : List Bool) (h : false ∈ alive) :
    pollConditions alive = .continueLoop := by
  induction alive with
  | nil => cases h
  | cons a rest ih =>
    cases a with
    | false => simp [pollConditions]
    | true =>
      have : false ∈ rest := by simpa using h
      simpa [pollConditions] using ih this

/-- Helper: if every alive condition is ready, the `for` walk completes and
its `else` clause raises `SystemExit`. -/
theorem pollConditions_all_ready (alive : List Bool) (h : ∀ r ∈ alive, r = true) :
    pollConditions alive = .systemExit := by
  induction alive with
  | nil => rfl
  | cons a rest ih =>
    have ha : a = true := h a (List.mem_cons_self a rest)
    subst ha
    simpa [pollConditions] using ih fun r hr => h r (List.mem_cons_of_mem _ hr)

/-- C1: for every inbound POST whose route segment maps to a hosted bot,
`handle_update` returns normally with an HTTP 200 response, for every request
body and even when decoding fails or update processing raises — the `return`
in the `finally` clause swallows every in-flight exception, so none
propagates to the HTTP layer. -/
theorem C1_mapped_route_always_200 (bot_runner_by_route : List (String × BotRunner))
    (de_json : Json → Option Update)
    (process_new_updates : BotRunner → Update → Outcome Unit)
    (route : String) (jsonBody : Outcome Json) (br : BotRunner)
    (h : bot_runner_by_route.lookup route = some br) :
    (handle_update bot_runner_by_route de_json process_new_updates
        (some route) jsonBody).1 = .ok { status := 200 } := by
  simp [handle_update, h, finallyReturn]

/-- Witness for C1 at a concrete table and a request body whose JSON parsing
raises. -/
theorem C1_mapped_route_always_200_witness :
    ([("r", BotRunner.mk "b")].lookup "r" = some (BotRunner.mk "b")) ∧
    (handle_update [("r", BotRunner.mk "b")] (fun _ => none) (fun _ _ => .ok ())
        (some "r") (.raised "malformed body")).1 = .ok { status := 200 } :=
  ⟨rfl, C1_mapped_route_always_200 _ _ _ _ _ _ rfl⟩

/-- C3: while the coordinator is shutting down, one iteration of the polling
loop continues (does not exit the process) whenever at least one currently
alive condition reports not-ready, and raises `SystemExit` whenever all
report ready. -/
theorem C3_poll_loop_exit_iff_all_ready (s : GracefulShutdownHandler)
    (alive : List Bool) (h : s._is_shutting_down = true) :
    ((∃ r ∈ alive, r = false) →
        GracefulShutdownHandler.runLoopIter s alive = .continueLoop) ∧
    ((∀ r ∈ alive, r = true) →
        GracefulShutdownHandler.runLoopIter s alive = .systemExit) := by
  unfold GracefulShutdownHandler.runLoopIter
  rw [h]
  constructor
  · rintro ⟨r, hr, hrf⟩
    subst hrf
    simpa using pollConditions_not_ready alive hr
  · intro hall
    simpa using pollConditions_all_ready alive hall

/-- Witness for C3 in the shutting-down state, with one not-ready condition
and with all conditions ready. -/
theorem C3_poll_loop_exit_iff_all_ready_witness :
    GracefulShutdownHandler.runLoopIter
        { _is_shutting_down := true, _is_running := true } [true, false]
      = .continueLoop ∧
    GracefulShutdownHandler.runLoopIter
        { _is_shutting_down := true, _is_running := true } [true, true]
      = .systemExit :=
  ⟨(C3_poll_loop_exit_iff_all_ready _ [true, false] rfl).1
      ⟨false, by decide, rfl⟩,
   (C3_poll_loop_exit_iff_all_ready _ [true, true] rfl).2 (by decide)⟩

/-- C4: after entering a `PreventShutdown` guard its readiness predicate
reports not-ready; after exiting it reports ready; and the predicate returns
true exactly when the blocking flag is false. -/
theorem C4_readiness_iff_flag_false (v : Bool) :
    PreventShutdown.is_ready_to_shutdown (PreventShutdown.aenter v) = false ∧
    PreventShutdown.is_ready_to_shutdown (PreventShutdown.aexit v) = true ∧
    (PreventShutdown.is_ready_to_shutdown v = true ↔ v = false) := by
  cases v <;>
    simp [PreventShutdown.is_ready_to_shutdown, PreventShutdown.aenter,
      PreventShutdown.aexit]

/-- C5: an `allow_shutdown` sub-scope sets the flag to false for its duration
and on (normal) exit restores exactly the flag value that held at entry; with
two nested levels the inner exit restores its own saved value (false, not a
blind reset to true) and the outer exit restores the original value, and a
nest of any depth restores the original value. -/
theorem C5_allow_shutdown_nested_restore (v : Bool) :
    (PreventShutdown.allowShutdownEnter v).2 = false ∧
    (let e1 := PreventShutdown.allowShutdownEnter v
     let e2 := PreventShutdown.allowShutdownEnter e1.2
     e2.2 = false ∧
     PreventShutdown.allowShutdownExit e2.1 e2.2 = e1.2 ∧
     PreventShutdown.allowShutdownExit e1.1
        (PreventShutdown.allowShutdownExit e2.1 e2.2) = v) ∧
    (∀ n : Nat, allowShutdownNest v n = v) := by
  refine ⟨rfl, ⟨rfl, rfl, rfl⟩, fun n => ?_⟩
  cases n with
  | zero => rfl
  | succ m => rfl

/-- C6: the shutdown signal handler is idempotent — the first signal flips
the state from running to shutting-down, a repeated signal while already
shutting down changes no state, and handling the same signal twice leaves the
same state as handling it once. -/
theorem C6_signal_idempotent (s : GracefulShutdownHandler) :
    (s._is_shutting_down = false →
      GracefulShutdownHandler.shutdownSignalHandler s
        = { s with _is_shutting_down := true }) ∧
    (s._is_shutting_down = true →
      GracefulShutdownHandler.shutdownSignalHandler s = s) ∧
    GracefulShutdownHandler.shutdownSignalHandler
        (GracefulShutdownHandler.shutdownSignalHandler s)
      = GracefulShutdownHandler.shutdownSignalHandler s := by
  obtain ⟨d, r⟩ := s
  cases d <;> simp [GracefulShutdownHandler.shutdownSignalHandler]

/-- Witness for C6: a first signal in the running state flips the flag, a
second signal in the shutting-down state changes nothing. -/
theorem C6_signal_idempotent_witness :
    GracefulShutdownHandler.shutdownSignalHandler
        { _is_shutting_down := false, _is_running := true }
      = { _is_shutting_down := true, _is_running := true } ∧
    GracefulShutdownHandler.shutdownSignalHandler
        { _is_shutting_down := true, _is_running := true }
      = { _is_shutting_down := true, _is_running := true } :=
  ⟨(C6_signal_idempotent _).1 rfl, (C6_signal_idempotent _).2.1 rfl⟩

/-- C2 (evaluation at the failing input): after a shutdown signal the
coordinator is in the shutting-down state, yet `handle_update` consults no
shutdown state at all — a request to a mapped route arriving in that state is
still accepted, processed and answered with HTTP 200, not refused with 500.
This contradicts the claim (and the repository's own
`test_webhook_app_graceful_shutdown`, which expects a 500 for a request
arriving during shutdown). -/
theorem C2_request_during_shutdown_gets_200 :
    (GracefulShutdownHandler.shutdownSignalHandler
        (GracefulShutdownHandler.construct none))._is_shutting_down = true ∧
    (handle_update [("bot", BotRunner.mk "bot")]
        (fun _ => some { update_id := 1 }) (fun _ _ => .ok ())
        (some "bot") (.ok { raw := "{}" }))
      = (.ok { status := 200 }, [{ update_id := 1 }]) ∧
    ({ status := 200 } : Response) ≠ { status := 500 } :=
  ⟨rfl, rfl, by decide⟩

/-- C7 (evaluation at the failing input): a direct second `run` on the same
singleton state does raise `RuntimeError`, as the claim says — but after any
intervening construction of `GracefulShutdownHandler` (for example inside
`is_shutting_down()`), `__init__` re-runs and clears `_is_running`, so a
second `run` then starts a second loop without raising, contradicting the
claim. -/
theorem C7_second_run_after_reconstruction_not_fatal :
    GracefulShutdownHandler.runStart (GracefulShutdownHandler.construct none)
      = .ok { _is_shutting_down := false, _is_running := true } ∧
    GracefulShutdownHandler.runStart
        { _is_shutting_down := false, _is_running := true }
      = .error "Graceful shutdown handler may be run only once" ∧
    GracefulShutdownHandler.construct
        (some { _is_shutting_down := false, _is_running := true })
      = { _is_shutting_down := false, _is_running := false } ∧
    GracefulShutdownHandler.runStart
        (GracefulShutdownHandler.construct
          (some { _is_shutting_down := false, _is_running := true }))
      = .ok { _is_shutting_down := false, _is_running := true } :=
  ⟨rfl, rfl, rfl, rfl⟩

/-- C8: a POST with no route segment is answered 404, and one whose route
segment is not mapped to a hosted bot is answered 403; in both cases no bot
processing is invoked (the processing trace is empty). -/
theorem C8_unmapped_route_403_missing_404
    (bot_runner_by_route : List (String × BotRunner))
    (de_json : Json → Option Update)
    (process_new_updates : BotRunner → Update → Outcome Unit)
    (jsonBody : Outcome Json) :
    (handle_update bot_runner_by_route de_json process_new_updates none jsonBody
        = (.ok { status := 404 }, [])) ∧
    (∀ r : String, bot_runner_by_route.lookup r = none →
      handle_update bot_runner_by_route de_json process_new_updates
          (some r) jsonBody
        = (.ok { status := 403 }, [])) := by
  refine ⟨rfl, fun r h => ?_⟩
  simp [handle_update, h]

/-- Witness for C8 at an empty route table. -/
theorem C8_unmapped_route_403_missing_404_witness :
    (handle_update [] (fun _ => none) (fun _ _ => .ok ()) none
        (.ok { raw := "" }) = (.ok { status := 404 }, [])) ∧
    (([] : List (String × BotRunner)).lookup "x" = none) ∧
    (handle_update [] (fun _ => none) (fun _ _ => .ok ()) (some "x")
        (.ok { raw := "" }) = (.ok { status := 403 }, [])) :=
  ⟨(C8_unmapped_route_403_missing_404 [] _ _ _).1, rfl,
   (C8_unmapped_route_403_missing_404 [] _ _ _).2 "x" rfl⟩

/-- C9: every call to `is_shutting_down()` returns false and resets the
singleton, whatever its prior state: constructing `GracefulShutdownHandler`
returns the singleton and unconditionally re-runs `__init__` on it, so after
the call both `_is_shutting_down` and `_is_running` are false. -/
theorem C9_is_shutting_down_always_false_and_resets
    (prior : Option GracefulShutdownHandler) :
    is_shutting_down prior = false ∧
    GracefulShutdownHandler.construct prior
      = { _is_shutting_down := false, _is_running := false } := by
  cases prior <;> exact ⟨rfl, rfl⟩

/-- C10: exiting a `PreventShutdown` guard sets the blocking flag to false
unconditionally — whatever the flag's value at entry and whether the guarded
body completed normally or raised — so the readiness predicate reports ready
after any exit; and the body's exception is not suppressed: it propagates out
of both the block form and the decorator form. -/
theorem C10_exit_resets_flag_and_propagates {α : Type} [Inhabited α]
    (entry : Bool) (body : Bool → Outcome α × Bool) :
    ((withPreventShutdown entry body).2 = false ∧
     PreventShutdown.is_ready_to_shutdown (withPreventShutdown entry body).2
       = true) ∧
    (∀ (e : String) (fb : Bool),
      body (PreventShutdown.aenter entry) = (.raised e, fb) →
        (withPreventShutdown entry body).1 = .raised e ∧
        (PreventShutdown.call body entry).1 = .raised e) := by
  constructor
  · rcases h : body (PreventShutdown.aenter entry) with ⟨res, fb⟩
    cases res <;>
      simp [withPreventShutdown, h, PreventShutdown.aexit,
        PreventShutdown.aexitSuppresses, PreventShutdown.is_ready_to_shutdown]
  · intro e fb h
    constructor <;>
      simp [withPreventShutdown, PreventShutdown.call, h,
        PreventShutdown.aexitSuppresses]

/-- Witness for C10: a body that raises, entered with the flag already true;
the exception propagates and the flag ends false. -/
theorem C10_exit_resets_flag_and_propagates_witness :
    ((fun f => ((.raised "boom" : Outcome Nat), f))
        (PreventShutdown.aenter true) = (.raised "boom", true)) ∧
    (withPreventShutdown true
        (fun f => ((.raised "boom" : Outcome Nat), f))).1 = .raised "boom" ∧
    (withPreventShutdown true
        (fun f => ((.raised "boom" : Outcome Nat), f))).2 = false :=
  ⟨rfl,
   ((C10_exit_resets_flag_and_propagates true
      (fun f => ((.raised "boom" : Outcome Nat), f))).2 "boom" true rfl).1,
   (C10_exit_resets_flag_and_propagates true
      (fun f => ((.raised "boom" : Outcome Nat), f))).1.1⟩
